import Mathlib

/-!
# Verification of the WinningJS observable-vector adapter

A shallow embedding of `src/lib/ObservableVectorDataSource.js` (the
`ObservableVectorListDataAdapter`) and, where the repository only ships tests
for it, a spec-modelled flyout component, together with theorems settling the
specification's claims.

Modelling conventions:
- The observable vector is a `List α`; JS index access `vector[i]` is `jsGet`,
  which yields `Option α` (`none` plays the role of the JS value `undefined`
  returned for an out-of-bounds index).
- `keySelector` and `mapping` are total JS functions, so they are modelled as
  functions on `Option α` (a JS function can be applied to `undefined`).
- `WinJS.Promise.wrap` / `WinJS.Promise.wrapError` become `Except FetchError`:
  a rejected asynchronous result is `.error`, a resolved one is `.ok`.
- The event loop is explicit: `setImmediate(f)` appends a task to a FIFO
  `pending` queue in `AdapterState`; `stepTick` pops and runs one task.
  Handler method invocations are reified as a trace of `HandlerCall` values;
  an operation's synchronous behaviour is the pair (new state, calls emitted
  during the operation itself).
-/

section DataSource

variable {α β κ : Type}

/-- JS index access `vector[i]`: `some` element when `0 ≤ i < length`,
`none` (i.e. `undefined`) otherwise. -/
def jsGet (v : List α) (i : Int) : Option α :=
  if h : 0 ≤ i ∧ i.toNat < v.length then some (v.get ⟨i.toNat, h.2⟩) else none

/-- Underscore's `_.range(start, stop)` with the default step 1:
the integers `start, start+1, …, stop-1`, empty when `stop ≤ start`. -/
def jsRange (start stop : Int) : List Int :=
  (List.range (stop - start).toNat).map (fun k : Nat => start + (k : Int))

/-- An `IItem`: the `{ data: …, key: … }` object built by `_itemFromIndex`. -/
structure Item (β κ : Type) where
  data : β
  key : κ
  deriving Repr, DecidableEq

/-- `_itemFromIndex`: reads `vector[index]` and applies `mapping`/`keySelector`. -/
def itemFromIndex (keySelector : Option α → κ) (mapping : Option α → β)
    (v : List α) (index : Int) : Item β κ :=
  { data := mapping (jsGet v index), key := keySelector (jsGet v index) }

/-- `_keyFromIndex`: `keySelector(vector[index])`. -/
def keyFromIndex (keySelector : Option α → κ) (v : List α) (index : Int) : κ :=
  keySelector (jsGet v index)

/-- The `IFetchResult` object returned by `itemsFromIndex`. -/
structure FetchResult (β κ : Type) where
  absoluteIndex : Int
  atEnd : Bool
  atStart : Bool
  items : List (Item β κ)
  offset : Int
  totalCount : Int
  deriving Repr, DecidableEq

/-- The fetch errors of `WinJS.UI.FetchError` used by the adapter. -/
inductive FetchError : Type
  | doesNotExist
  deriving Repr, DecidableEq

/-- `getCount`: a resolved promise for the vector's length. -/
def getCount (v : List α) : Int := v.length

/-- `itemsFromIndex(index, countBefore, countAfter)`: rejects with
`doesNotExist` when `index >= length`, otherwise resolves with the window
`[max(index-countBefore,0), min(index+countAfter, length-1)]`. -/
def itemsFromIndex (keySelector : Option α → κ) (mapping : Option α → β)
    (v : List α) (index countBefore countAfter : Int) :
    Except FetchError (FetchResult β κ) :=
  let length : Int := v.length
  if index ≥ length then
    .error .doesNotExist
  else
    let start := max (index - countBefore) 0
    let stop := min (index + countAfter) (length - 1)
    .ok {
      absoluteIndex := index
      atEnd := stop = length - 1
      atStart := start = 0
      items := (jsRange start (stop + 1)).map (itemFromIndex keySelector mapping v)
      offset := index - start
      totalCount := length
    }

/-- `itemsFromStart(count)` = `itemsFromIndex(0, 0, count - 1)`. -/
def itemsFromStart (keySelector : Option α → κ) (mapping : Option α → β)
    (v : List α) (count : Int) : Except FetchError (FetchResult β κ) :=
  itemsFromIndex keySelector mapping v 0 0 (count - 1)

/-- `itemsFromEnd(count)` = `itemsFromIndex(length - 1, count - 1, 0)`. -/
def itemsFromEnd (keySelector : Option α → κ) (mapping : Option α → β)
    (v : List α) (count : Int) : Except FetchError (FetchResult β κ) :=
  itemsFromIndex keySelector mapping v ((v.length : Int) - 1) (count - 1) 0

/-- The `CollectionChange` enumeration
(`Windows.Foundation.Collections.CollectionChange`). -/
inductive CollectionChange : Type
  | reset
  | itemInserted
  | itemRemoved
  | itemChanged
  deriving Repr, DecidableEq

/-- A reified invocation of one method of the `IListDataNotificationHandler`.
`Option κ` models a key argument that may be the JS value `null`. -/
inductive HandlerCall (β κ : Type) : Type
  | beginNotifications
  | endNotifications
  | reload
  | inserted (item : Item β κ) (previousKey nextKey : Option κ) (index : Int)
  | removed (key : Option κ) (index : Int)
  | changed (item : Item β κ)
  deriving Repr, DecidableEq

/-- A callback sitting in the `setImmediate` queue: either the replay scheduled
by `setNotificationHandler`, or a `makeCollectionChangeHandler(collectionChange,
index)` closure scheduled by the `"vectorchanged"` listener (the closure
captures the event's `collectionChange` and `index` at event time). -/
inductive AdapterTask : Type
  | replay
  | change (collectionChange : CollectionChange) (index : Int)
  deriving Repr, DecidableEq

/-- The state of one `ObservableVectorListDataAdapter` together with its event
loop: the wrapped vector, whether `_notificationHandler` is set, and the FIFO
queue of callbacks scheduled via `setImmediate` but not yet run. -/
structure AdapterState (α : Type) where
  vector : List α
  hasHandler : Bool
  pending : List AdapterTask
  deriving Repr, DecidableEq

/-- `_notifyInsertedAtIndex`: builds the single `inserted(item, previousKey,
nextKey, index)` call, with `previousKey = null` iff `index === 0` and
`nextKey = null` unless `index < length - 1`. -/
def notifyInsertedAtIndex (keySelector : Option α → κ) (mapping : Option α → β)
    (v : List α) (index : Int) : HandlerCall β κ :=
  .inserted (itemFromIndex keySelector mapping v index)
    (if index = 0 then none else some (keyFromIndex keySelector v (index - 1)))
    (if index < (v.length : Int) - 1 then some (keyFromIndex keySelector v (index + 1)) else none)
    index

/-- `setNotificationHandler(notificationHandler)`: stores the handler and
schedules (via `setImmediate`) the replay of the vector's current contents.
It emits no handler calls synchronously. -/
def setNotificationHandler (s : AdapterState α) :
    AdapterState α × List (HandlerCall β κ) :=
  ({ s with hasHandler := true, pending := s.pending ++ [AdapterTask.replay] }, [])

/-- The `"vectorchanged"` listener installed by the constructor: if no
notification handler is set it returns at once (nothing is scheduled);
otherwise it schedules `makeCollectionChangeHandler(ev.collectionChange,
ev.index)` via `setImmediate`. It emits no handler calls synchronously. -/
def vectorChangedEvent (s : AdapterState α) (collectionChange : CollectionChange)
    (index : Int) : AdapterState α × List (HandlerCall β κ) :=
  if s.hasHandler then
    ({ s with pending := s.pending ++ [AdapterTask.change collectionChange index] }, [])
  else
    (s, [])

/-- The body of a `makeCollectionChangeHandler(collectionChange, index)`
closure when it finally runs: one handler call, chosen by the `switch` on
`collectionChange`, computed from the vector as it is at run time. -/
def runChangeTask (keySelector : Option α → κ) (mapping : Option α → β)
    (v : List α) (collectionChange : CollectionChange) (index : Int) :
    List (HandlerCall β κ) :=
  match collectionChange with
  | .reset => [.reload]
  | .itemInserted => [notifyInsertedAtIndex keySelector mapping v index]
  | .itemRemoved => [.removed none index]
  | .itemChanged => [.changed (itemFromIndex keySelector mapping v index)]

/-- The body of the replay callback scheduled by `setNotificationHandler` when
it finally runs: if the vector is non-empty at run time,
`beginNotifications()`, then `_notifyInsertedAtIndex(i)` for each index `i` of
the vector in ascending order (`forEach`), then `endNotifications()`;
otherwise nothing. -/
def replayTrace (keySelector : Option α → κ) (mapping : Option α → β)
    (v : List α) : List (HandlerCall β κ) :=
  if v.length > 0 then
    HandlerCall.beginNotifications ::
      ((List.range v.length).map
          (fun i : Nat => notifyInsertedAtIndex keySelector mapping v (i : Int))
        ++ [HandlerCall.endNotifications])
  else []

/-- Run one pending task against the current state. -/
def runTask (keySelector : Option α → κ) (mapping : Option α → β)
    (s : AdapterState α) : AdapterTask → List (HandlerCall β κ)
  | .replay => replayTrace keySelector mapping s.vector
  | .change collectionChange index =>
      runChangeTask keySelector mapping s.vector collectionChange index

/-- One tick of the event loop: pop the oldest `setImmediate` callback (if
any) and run it, yielding the handler calls it makes. -/
def stepTick (keySelector : Option α → κ) (mapping : Option α → β)
    (s : AdapterState α) : AdapterState α × List (HandlerCall β κ) :=
  match s.pending with
  | [] => (s, [])
  | t :: rest => ({ s with pending := rest }, runTask keySelector mapping s t)

section Flyout

variable {A : Type}

/-- Modelled from the spec: the component produced by
`createFlyoutConstructor` (the module `src/lib/ui/components` is not present
under `src/`; only its test file is). Per spec §4.2/§7, an anchor can be
established by the `anchor` constructor option, by assignment to the mutable
`anchor` property, or by the argument of `show`; only the first two are part
of the component's state. -/
structure FlyoutComponent (A : Type) where
  ctorAnchor : Option A
  propAnchor : Option A
  deriving Repr, DecidableEq

/-- Modelled from the spec: the outcome of `show(anchorArg?)` after
`process()` has resolved. It is always an asynchronous result — `rejected`
(a rejected promise, never a synchronously thrown error) or `shown arg`
(the native control's `show` was invoked, with `arg` forwarded). -/
inductive ShowOutcome (A : Type) : Type
  | rejected
  | shown (anchorArg : Option A)
  deriving Repr, DecidableEq

/-- Modelled from the spec: the anchor in effect when `show` runs — the
argument if given, else the property, else the constructor option. -/
def FlyoutComponent.establishedAnchor (c : FlyoutComponent A)
    (anchorArg : Option A) : Option A :=
  (anchorArg.orElse fun _ => (c.propAnchor.orElse fun _ => c.ctorAnchor))

/-- Modelled from the spec: `show(anchorArg?)` fails (as a rejected
asynchronous result) when no anchor has been established by any of the three
means, and otherwise proxies to the native control's `show`. -/
def FlyoutComponent.show (c : FlyoutComponent A) (anchorArg : Option A) :
    ShowOutcome A :=
  match c.establishedAnchor anchorArg with
  | none => .rejected
  | some _ => .shown anchorArg

end Flyout

end DataSource

/-! ## Helper lemmas -/

theorem jsRange_length (start stop : Int) :
    (jsRange start stop).length = (stop - start).toNat := by
  rw [jsRange, List.length_map, List.length_range]

theorem jsRange_getElem? (start stop : Int) (j : Nat) (h : j < (stop - start).toNat) :
    (jsRange start stop)[j]? = some (start + (j : Int)) := by
  rw [jsRange, List.getElem?_map, List.getElem?_range h]
  rfl

theorem jsGet_eq_some {α : Type} (v : List α) (i : Int)
    (h0 : 0 ≤ i) (h1 : i < (v.length : Int)) : ∃ e, jsGet v i = some e := by
  have h2 : i.toNat < v.length := by omega
  exact ⟨v.get ⟨i.toNat, h2⟩, dif_pos ⟨h0, h2⟩⟩

theorem itemsFromIndex_ok_eq {α β κ : Type} (keySelector : Option α → κ)
    (mapping : Option α → β) (v : List α) (index countBefore countAfter : Int)
    (h : index < (v.length : Int)) :
    itemsFromIndex keySelector mapping v index countBefore countAfter =
      Except.ok {
        absoluteIndex := index
        atEnd := decide (min (index + countAfter) ((v.length : Int) - 1) = (v.length : Int) - 1)
        atStart := decide (max (index - countBefore) 0 = 0)
        items := (jsRange (max (index - countBefore) 0)
            (min (index + countAfter) ((v.length : Int) - 1) + 1)).map
            (itemFromIndex keySelector mapping v)
        offset := index - max (index - countBefore) 0
        totalCount := (v.length : Int)
      } := by
  rw [itemsFromIndex, if_neg (by omega)]

/-! ## Claim theorems -/

/-- **C2 counterexample**: the claim says `itemsFromIndex` fails for *every*
out-of-bounds index, including negative ones; but the code only checks
`index >= length`, so on the singleton vector `[0]` the call
`itemsFromIndex(-1, 0, 0)` resolves with a (degenerate, empty) fetch result
instead of failing. -/
theorem itemsFromIndex_negativeIndex_ok :
    itemsFromIndex (fun o => o.getD 0) (fun o => o.getD 0) [0] (-1) 0 0 =
      Except.ok { absoluteIndex := -1, atEnd := false, atStart := true,
                  items := [], offset := -1, totalCount := 1 } := rfl

/-- **C2 (amended)**: `itemsFromIndex` fails with the "does not exist"
condition (as a rejected asynchronous result) *exactly* when
`index >= length`; in particular every call with `index >= length` fails,
while a negative index (which is below the bound the code checks) resolves
with a fetch result. -/
theorem itemsFromIndex_error_iff {α β κ : Type} (keySelector : Option α → κ)
    (mapping : Option α → β) (v : List α) (index countBefore countAfter : Int) :
    (itemsFromIndex keySelector mapping v index countBefore countAfter
        = Except.error FetchError.doesNotExist) ↔ (v.length : Int) ≤ index := by
  rw [itemsFromIndex]
  split
  · simpa using by omega
  · simp
    omega


/-- **C6**: an `itemRemoved` vector-change event delivered while a handler is
attached yields exactly one handler call, `removed(null, i)`: the key argument
is always `null` regardless of the removed element, and the index equals the
event's index. (The event itself emits nothing synchronously and schedules
exactly one task; delivering that task, whatever the vector holds at delivery
time, produces the single `removed` call.) -/
theorem itemRemoved_spec {α β κ : Type} (keySelector : Option α → κ)
    (mapping : Option α → β) (s t : AdapterState α) (i : Int)
    (hh : s.hasHandler = true) :
    (vectorChangedEvent s CollectionChange.itemRemoved i
        : AdapterState α × List (HandlerCall β κ))
      = ({ s with pending := s.pending ++ [AdapterTask.change CollectionChange.itemRemoved i] },
         []) ∧
    runTask keySelector mapping t (AdapterTask.change CollectionChange.itemRemoved i)
      = [HandlerCall.removed none i] := by
  constructor
  · rw [vectorChangedEvent, if_pos hh]
  · rfl

/-- **C6 witness**: concrete instantiation on the state wrapping `[7]` with a
handler attached, removal at index 0. -/
theorem itemRemoved_spec_witness :
    (AdapterState.mk [7] true [] : AdapterState Nat).hasHandler = true ∧
    ((vectorChangedEvent (AdapterState.mk [7] true []) CollectionChange.itemRemoved 0
        : AdapterState Nat × List (HandlerCall Nat Nat))
      = (AdapterState.mk [7] true [AdapterTask.change CollectionChange.itemRemoved 0], []) ∧
    runTask (fun o => o.getD 0) (fun o => o.getD 0) (AdapterState.mk [7] true [])
        (AdapterTask.change CollectionChange.itemRemoved 0)
      = [HandlerCall.removed none 0]) :=
  ⟨rfl, itemRemoved_spec (fun o => o.getD 0) (fun o => o.getD 0)
    (AdapterState.mk [7] true []) (AdapterState.mk [7] true []) 0 rfl⟩

/-- **C9**: no adapter operation mutates the wrapped observable vector. The
fetch operations (`getCount`, `itemsFromIndex`, `itemsFromStart`,
`itemsFromEnd`) are pure functions of the vector value and return no updated
state at all; each stateful transition — `setNotificationHandler`, the
`"vectorchanged"` listener, and running a scheduled task (`stepTick`) —
leaves the vector component of the state unchanged. -/
theorem adapter_preserves_vector {α β κ : Type} (keySelector : Option α → κ)
    (mapping : Option α → β) (s : AdapterState α) (c : CollectionChange) (i : Int) :
    (setNotificationHandler s : AdapterState α × List (HandlerCall β κ)).1.vector
        = s.vector ∧
    (vectorChangedEvent s c i : AdapterState α × List (HandlerCall β κ)).1.vector
        = s.vector ∧
    (stepTick keySelector mapping s).1.vector = s.vector := by
  refine ⟨rfl, ?_, ?_⟩
  · rw [vectorChangedEvent]
    split <;> rfl
  · rw [stepTick]
    split <;> rfl

/-- **C10**: a vector-change event that fires while no notification handler is
attached leaves the adapter state completely unchanged (nothing is scheduled)
and emits no handler call; attaching a handler afterwards schedules only the
replay task, so the dropped event can never be delivered. -/
theorem unattachedEvent_dropped {α β κ : Type} (s : AdapterState α)
    (c : CollectionChange) (i : Int) (hh : s.hasHandler = false) :
    (vectorChangedEvent s c i : AdapterState α × List (HandlerCall β κ)) = (s, []) ∧
    (setNotificationHandler
        ((vectorChangedEvent s c i : AdapterState α × List (HandlerCall β κ)).1)
        : AdapterState α × List (HandlerCall β κ)).1.pending
      = s.pending ++ [AdapterTask.replay] := by
  have h1 : (vectorChangedEvent s c i : AdapterState α × List (HandlerCall β κ)) = (s, []) := by
    rw [vectorChangedEvent, if_neg (by simp [hh])]
  exact ⟨h1, by rw [h1]; rfl⟩

/-- **C10 witness**: concrete instantiation — an insert event on a
handler-less adapter wrapping `[1, 2]` is dropped. -/
theorem unattachedEvent_dropped_witness :
    (AdapterState.mk [1, 2] false [] : AdapterState Nat).hasHandler = false ∧
    ((vectorChangedEvent (AdapterState.mk [1, 2] false []) CollectionChange.itemInserted 1
        : AdapterState Nat × List (HandlerCall Nat Nat))
      = (AdapterState.mk [1, 2] false [], []) ∧
    (setNotificationHandler
        ((vectorChangedEvent (AdapterState.mk [1, 2] false [])
            CollectionChange.itemInserted 1
          : AdapterState Nat × List (HandlerCall Nat Nat)).1)
        : AdapterState Nat × List (HandlerCall Nat Nat)).1.pending
      = [] ++ [AdapterTask.replay]) :=
  ⟨rfl, unattachedEvent_dropped (AdapterState.mk [1, 2] false [])
    CollectionChange.itemInserted 1 rfl⟩

/-- **C8** (spec-modelled; the `components` module itself is not under
`src/`): if no anchor has been established — no constructor option, no
property assignment, and no `show` argument — then `show()` yields the
rejected asynchronous outcome (a value, never a synchronous throw) and the
native control's `show` is not invoked (the outcome is not `shown`);
conversely, establishing an anchor by any one of the three means makes
`show` proxy to the native control's `show`. -/
theorem flyout_show_anchor_spec {A : Type} (c : FlyoutComponent A) (arg : Option A)
    (hc : c.ctorAnchor = none) (hp : c.propAnchor = none) :
    (c.show none = ShowOutcome.rejected ∧
      ∀ a : Option A, c.show none ≠ ShowOutcome.shown a) ∧
    (∀ a : A, c.show (some a) = ShowOutcome.shown (some a)) ∧
    (∀ a : A, (FlyoutComponent.mk c.ctorAnchor (some a)).show arg = ShowOutcome.shown arg) ∧
    (∀ a : A, (FlyoutComponent.mk (some a) c.propAnchor).show arg = ShowOutcome.shown arg) := by
  refine ⟨⟨?_, ?_⟩, ?_, ?_, ?_⟩
  · rw [FlyoutComponent.show, FlyoutComponent.establishedAnchor, hc, hp]
    rfl
  · intro a
    rw [FlyoutComponent.show, FlyoutComponent.establishedAnchor, hc, hp]
    exact fun h => ShowOutcome.noConfusion h
  · intro a
    rw [FlyoutComponent.show, FlyoutComponent.establishedAnchor]
    rfl
  · intro a
    rw [FlyoutComponent.show, FlyoutComponent.establishedAnchor]
    cases arg <;> simp [Option.orElse, hp]
  · intro a
    rw [FlyoutComponent.show, FlyoutComponent.establishedAnchor]
    cases arg <;> simp [Option.orElse, hp, hc]

/-- **C8 witness**: the anchor-less flyout's `show()` is rejected; each of the
three anchor-establishment routes makes `show` proxy (instantiated at
`A = Nat`, anchor `5`, no argument). -/
theorem flyout_show_anchor_spec_witness :
    (FlyoutComponent.mk (none : Option Nat) none).ctorAnchor = none ∧
    (FlyoutComponent.mk (none : Option Nat) none).propAnchor = none ∧
    (((FlyoutComponent.mk (none : Option Nat) none).show none = ShowOutcome.rejected ∧
      ∀ a : Option Nat,
        (FlyoutComponent.mk (none : Option Nat) none).show none ≠ ShowOutcome.shown a) ∧
    (∀ a : Nat,
      (FlyoutComponent.mk (none : Option Nat) none).show (some a) = ShowOutcome.shown (some a)) ∧
    (∀ a : Nat,
      (FlyoutComponent.mk ((FlyoutComponent.mk (none : Option Nat) none).ctorAnchor)
        (some a)).show none = ShowOutcome.shown none) ∧
    (∀ a : Nat,
      (FlyoutComponent.mk (some a)
        ((FlyoutComponent.mk (none : Option Nat) none).propAnchor)).show none
          = ShowOutcome.shown none)) :=
  ⟨rfl, rfl,
    flyout_show_anchor_spec (FlyoutComponent.mk none none) none rfl rfl⟩

/-- **C5**: while a handler is attached, every vector-change event emits no
handler call synchronously and schedules exactly one task; two successive
events schedule two separate tasks in order (no batching or coalescing); and
delivering a scheduled task on a later tick produces exactly one handler
call — `reload` for a reset, one `inserted` for an insert, one `removed` for
a removal, one `changed` for a change. -/
theorem eventTranslation_one_call_per_event {α β κ : Type}
    (keySelector : Option α → κ) (mapping : Option α → β)
    (s t : AdapterState α) (c c' : CollectionChange) (i i' : Int)
    (hh : s.hasHandler = true) :
    (vectorChangedEvent s c i : AdapterState α × List (HandlerCall β κ)).2 = [] ∧
    (vectorChangedEvent s c i : AdapterState α × List (HandlerCall β κ)).1.pending
      = s.pending ++ [AdapterTask.change c i] ∧
    (vectorChangedEvent
        ((vectorChangedEvent s c i : AdapterState α × List (HandlerCall β κ)).1) c' i'
        : AdapterState α × List (HandlerCall β κ)).1.pending
      = s.pending ++ [AdapterTask.change c i, AdapterTask.change c' i'] ∧
    (runTask keySelector mapping t (AdapterTask.change c i)).length = 1 ∧
    runTask keySelector mapping t (AdapterTask.change CollectionChange.reset i)
      = [HandlerCall.reload] ∧
    runTask keySelector mapping t (AdapterTask.change CollectionChange.itemInserted i)
      = [notifyInsertedAtIndex keySelector mapping t.vector i] ∧
    runTask keySelector mapping t (AdapterTask.change CollectionChange.itemRemoved i)
      = [HandlerCall.removed none i] ∧
    runTask keySelector mapping t (AdapterTask.change CollectionChange.itemChanged i)
      = [HandlerCall.changed (itemFromIndex keySelector mapping t.vector i)] := by
  have hev : (vectorChangedEvent s c i : AdapterState α × List (HandlerCall β κ))
      = ({ s with pending := s.pending ++ [AdapterTask.change c i] }, []) := by
    rw [vectorChangedEvent, if_pos hh]
  refine ⟨by rw [hev], by rw [hev], ?_, ?_, rfl, rfl, rfl, rfl⟩
  · rw [hev]
    rw [vectorChangedEvent, if_pos hh]
    simp
  · cases c <;> rfl

/-- **C5 witness**: concrete instantiation — two successive events (an insert
at 0 and a removal at 0) on a handler-attached adapter wrapping `[3]`. -/
theorem eventTranslation_one_call_per_event_witness :
    (AdapterState.mk [3] true [] : AdapterState Nat).hasHandler = true ∧
    ((vectorChangedEvent (AdapterState.mk [3] true []) CollectionChange.itemInserted 0
        : AdapterState Nat × List (HandlerCall Nat Nat)).2 = [] ∧
    (vectorChangedEvent (AdapterState.mk [3] true []) CollectionChange.itemInserted 0
        : AdapterState Nat × List (HandlerCall Nat Nat)).1.pending
      = [] ++ [AdapterTask.change CollectionChange.itemInserted 0] ∧
    (vectorChangedEvent
        ((vectorChangedEvent (AdapterState.mk [3] true []) CollectionChange.itemInserted 0
          : AdapterState Nat × List (HandlerCall Nat Nat)).1)
        CollectionChange.itemRemoved 0
        : AdapterState Nat × List (HandlerCall Nat Nat)).1.pending
      = [] ++ [AdapterTask.change CollectionChange.itemInserted 0,
               AdapterTask.change CollectionChange.itemRemoved 0] ∧
    (runTask (fun o => o.getD 0) (fun o => o.getD 0) (AdapterState.mk [3] true [])
        (AdapterTask.change CollectionChange.itemInserted 0)).length = 1 ∧
    runTask (fun o => o.getD 0) (fun o => o.getD 0) (AdapterState.mk [3] true [])
        (AdapterTask.change CollectionChange.reset 0) = [HandlerCall.reload] ∧
    runTask (fun o => o.getD 0) (fun o => o.getD 0) (AdapterState.mk [3] true [])
        (AdapterTask.change CollectionChange.itemInserted 0)
      = [notifyInsertedAtIndex (fun o => o.getD 0) (fun o => o.getD 0) [3] 0] ∧
    runTask (fun o => o.getD 0) (fun o => o.getD 0) (AdapterState.mk [3] true [])
        (AdapterTask.change CollectionChange.itemRemoved 0)
      = [HandlerCall.removed none 0] ∧
    runTask (fun o => o.getD 0) (fun o => o.getD 0) (AdapterState.mk [3] true [])
        (AdapterTask.change CollectionChange.itemChanged 0)
      = [HandlerCall.changed (itemFromIndex (fun o => o.getD 0) (fun o => o.getD 0) [3] 0)]) :=
  ⟨rfl, eventTranslation_one_call_per_event (fun o => o.getD 0) (fun o => o.getD 0)
    (AdapterState.mk [3] true []) (AdapterState.mk [3] true [])
    CollectionChange.itemInserted CollectionChange.itemRemoved 0 0 rfl⟩

/-- **C3**: `setNotificationHandler` emits no handler call synchronously and
schedules exactly one replay task; when that task runs (on a later tick), it
delivers nothing if the vector is empty at replay time, and otherwise
delivers `beginNotifications`, then exactly one `inserted` call per element
of the vector in ascending index order (the call at trace position `j + 1`
carries the item at index `j` and the index argument `j`), then
`endNotifications`. -/
theorem setNotificationHandler_replay_spec {α β κ : Type}
    (keySelector : Option α → κ) (mapping : Option α → β)
    (s t : AdapterState α) (hv : t.vector ≠ []) :
    (setNotificationHandler s : AdapterState α × List (HandlerCall β κ)).2 = [] ∧
    (setNotificationHandler s : AdapterState α × List (HandlerCall β κ)).1.pending
      = s.pending ++ [AdapterTask.replay] ∧
    (∀ u : AdapterState α, u.vector = [] →
      runTask keySelector mapping u AdapterTask.replay = []) ∧
    (runTask keySelector mapping t AdapterTask.replay).length = t.vector.length + 2 ∧
    (runTask keySelector mapping t AdapterTask.replay).head?
      = some HandlerCall.beginNotifications ∧
    (runTask keySelector mapping t AdapterTask.replay).getLast?
      = some HandlerCall.endNotifications ∧
    ∀ j : Nat, j < t.vector.length →
      ∃ previousKey nextKey : Option κ,
        (runTask keySelector mapping t AdapterTask.replay)[j + 1]? =
          some (HandlerCall.inserted
            (itemFromIndex keySelector mapping t.vector (j : Int))
            previousKey nextKey (j : Int)) := by
  have hlen : 0 < t.vector.length := List.length_pos.mpr hv
  have hrt : runTask keySelector mapping t AdapterTask.replay
      = HandlerCall.beginNotifications ::
        ((List.range t.vector.length).map
            (fun i : Nat => notifyInsertedAtIndex keySelector mapping t.vector (i : Int))
          ++ [HandlerCall.endNotifications]) := by
    show replayTrace keySelector mapping t.vector = _
    rw [replayTrace, if_pos hlen]
  refine ⟨rfl, rfl, ?_, ?_, ?_, ?_, ?_⟩
  · intro u hu
    show replayTrace keySelector mapping u.vector = []
    rw [replayTrace, hu]
    rfl
  · rw [hrt]
    simp
  · rw [hrt]
    rfl
  · rw [hrt, ← List.cons_append, List.getLast?_concat]
  · intro j hj
    refine ⟨if (j : Int) = 0 then none
        else some (keyFromIndex keySelector t.vector ((j : Int) - 1)),
      if (j : Int) < (t.vector.length : Int) - 1
        then some (keyFromIndex keySelector t.vector ((j : Int) + 1)) else none, ?_⟩
    rw [hrt]
    rw [List.getElem?_cons_succ, List.getElem?_append, if_pos (by simpa using hj),
      List.getElem?_map, List.getElem?_range hj]
    rfl

/-- **C3 witness**: concrete instantiation — attaching a handler to the
adapter wrapping `[4, 9]` schedules one replay, whose delivery is
`beginNotifications`, `inserted` for indices 0 and 1, `endNotifications`. -/
theorem setNotificationHandler_replay_spec_witness :
    (AdapterState.mk [4, 9] false [] : AdapterState Nat).vector ≠ [] ∧
    ((setNotificationHandler (AdapterState.mk [4, 9] false [])
        : AdapterState Nat × List (HandlerCall Nat Nat)).2 = [] ∧
    (setNotificationHandler (AdapterState.mk [4, 9] false [])
        : AdapterState Nat × List (HandlerCall Nat Nat)).1.pending
      = [] ++ [AdapterTask.replay] ∧
    (∀ u : AdapterState Nat, u.vector = [] →
      runTask (fun o => o.getD 0) (fun o => o.getD 0) u AdapterTask.replay = []) ∧
    (runTask (fun o => o.getD 0) (fun o => o.getD 0) (AdapterState.mk [4, 9] false [])
        AdapterTask.replay).length = ([4, 9] : List Nat).length + 2 ∧
    (runTask (fun o => o.getD 0) (fun o => o.getD 0) (AdapterState.mk [4, 9] false [])
        AdapterTask.replay).head? = some HandlerCall.beginNotifications ∧
    (runTask (fun o => o.getD 0) (fun o => o.getD 0) (AdapterState.mk [4, 9] false [])
        AdapterTask.replay).getLast? = some HandlerCall.endNotifications ∧
    ∀ j : Nat, j < ([4, 9] : List Nat).length →
      ∃ previousKey nextKey : Option Nat,
        (runTask (fun o => o.getD 0) (fun o => o.getD 0) (AdapterState.mk [4, 9] false [])
            AdapterTask.replay)[j + 1]? =
          some (HandlerCall.inserted
            (itemFromIndex (fun o => o.getD 0) (fun o => o.getD 0) [4, 9] (j : Int))
            previousKey nextKey (j : Int))) :=
  ⟨by decide, setNotificationHandler_replay_spec (fun o => o.getD 0) (fun o => o.getD 0)
    (AdapterState.mk [4, 9] false []) (AdapterState.mk [4, 9] false []) (by decide)⟩

/-- **C4**: an `itemInserted` vector-change event at index `i` delivered while
a handler is attached yields exactly one handler call
`inserted(item, previousKey, nextKey, i)`, where `item` is the `{data, key}`
pair for vector position `i`, `previousKey` is `null` iff `i = 0` (otherwise
the key of position `i - 1`), and `nextKey` is `null` iff `i >= length - 1`
(otherwise the key of position `i + 1`); the vector is read at delivery
time. -/
theorem itemInserted_spec {α β κ : Type} (keySelector : Option α → κ)
    (mapping : Option α → β) (s t : AdapterState α) (i : Int)
    (hh : s.hasHandler = true) (h0 : 0 ≤ i) (h1 : i < (t.vector.length : Int)) :
    (vectorChangedEvent s CollectionChange.itemInserted i
        : AdapterState α × List (HandlerCall β κ))
      = ({ s with pending := s.pending ++ [AdapterTask.change CollectionChange.itemInserted i] },
         []) ∧
    ∃ e : α, jsGet t.vector i = some e ∧
    ∃ previousKey nextKey : Option κ,
      runTask keySelector mapping t (AdapterTask.change CollectionChange.itemInserted i)
        = [HandlerCall.inserted { data := mapping (some e), key := keySelector (some e) }
            previousKey nextKey i] ∧
      (i = 0 → previousKey = none) ∧
      (0 < i → ∃ p : α, jsGet t.vector (i - 1) = some p ∧
        previousKey = some (keySelector (some p))) ∧
      ((t.vector.length : Int) - 1 ≤ i → nextKey = none) ∧
      (i < (t.vector.length : Int) - 1 → ∃ q : α, jsGet t.vector (i + 1) = some q ∧
        nextKey = some (keySelector (some q))) := by
  obtain ⟨e, he⟩ := jsGet_eq_some t.vector i h0 h1
  refine ⟨by rw [vectorChangedEvent, if_pos hh], e, he,
    if i = 0 then none else some (keyFromIndex keySelector t.vector (i - 1)),
    if i < (t.vector.length : Int) - 1
      then some (keyFromIndex keySelector t.vector (i + 1)) else none,
    ?_, ?_, ?_, ?_, ?_⟩
  · show [notifyInsertedAtIndex keySelector mapping t.vector i] = _
    rw [notifyInsertedAtIndex, itemFromIndex, he]
  · intro h
    rw [if_pos h]
  · intro h
    obtain ⟨p, hp⟩ := jsGet_eq_some t.vector (i - 1) (by omega) (by omega)
    exact ⟨p, hp, by rw [if_neg (by omega), keyFromIndex, hp]⟩
  · intro h
    rw [if_neg (by omega)]
  · intro h
    obtain ⟨q, hq⟩ := jsGet_eq_some t.vector (i + 1) (by omega) (by omega)
    exact ⟨q, hq, by rw [if_pos h, keyFromIndex, hq]⟩

/-- **C4 witness**: concrete instantiation — insert at index 1 of `[4, 9, 6]`
with a handler attached. -/
theorem itemInserted_spec_witness :
    (AdapterState.mk [4, 9, 6] true [] : AdapterState Nat).hasHandler = true ∧
    (0 : Int) ≤ 1 ∧ (1 : Int) < (([4, 9, 6] : List Nat).length : Int) ∧
    ((vectorChangedEvent (AdapterState.mk [4, 9, 6] true []) CollectionChange.itemInserted 1
        : AdapterState Nat × List (HandlerCall Nat Nat))
      = (AdapterState.mk [4, 9, 6] true
          [AdapterTask.change CollectionChange.itemInserted 1], []) ∧
    ∃ e : Nat, jsGet [4, 9, 6] 1 = some e ∧
    ∃ previousKey nextKey : Option Nat,
      runTask (fun o => o.getD 0) (fun o => o.getD 0) (AdapterState.mk [4, 9, 6] true [])
          (AdapterTask.change CollectionChange.itemInserted 1)
        = [HandlerCall.inserted
            { data := (some e).getD 0, key := (some e).getD 0 } previousKey nextKey 1] ∧
      ((1 : Int) = 0 → previousKey = none) ∧
      ((0 : Int) < 1 → ∃ p : Nat, jsGet [4, 9, 6] ((1 : Int) - 1) = some p ∧
        previousKey = some ((some p).getD 0)) ∧
      ((([4, 9, 6] : List Nat).length : Int) - 1 ≤ 1 → nextKey = none) ∧
      ((1 : Int) < (([4, 9, 6] : List Nat).length : Int) - 1 →
        ∃ q : Nat, jsGet [4, 9, 6] ((1 : Int) + 1) = some q ∧
          nextKey = some ((some q).getD 0))) :=
  ⟨rfl, by decide, by decide,
    itemInserted_spec (fun o => o.getD 0) (fun o => o.getD 0)
      (AdapterState.mk [4, 9, 6] true []) (AdapterState.mk [4, 9, 6] true []) 1
      rfl (by decide) (by decide)⟩

/-- **C1**: for an in-bounds index (`0 ≤ index < length`) and non-negative
`countBefore`/`countAfter`, `itemsFromIndex` resolves with a fetch result
whose `items` are exactly the `{data, key}` pairs for vector positions
`start .. stop`, `start = max(0, index - countBefore)`,
`stop = min(length - 1, index + countAfter)` (the `j`-th item is the pair for
position `start + j`), with `absoluteIndex = index`, `offset = index - start`,
`atStart` true iff `start = 0`, `atEnd` true iff `stop = length - 1`,
`totalCount = length`; in particular the `offset`-th item is the pair for
position `index`, so its key is `keySelector(vector[index])`. -/
theorem itemsFromIndex_inBounds_spec {α β κ : Type} (keySelector : Option α → κ)
    (mapping : Option α → β) (v : List α) (index countBefore countAfter : Int)
    (h0 : 0 ≤ index) (h1 : index < (v.length : Int))
    (hb : 0 ≤ countBefore) (ha : 0 ≤ countAfter) :
    ∃ r : FetchResult β κ,
      itemsFromIndex keySelector mapping v index countBefore countAfter = Except.ok r ∧
      r.absoluteIndex = index ∧
      r.offset = index - max (index - countBefore) 0 ∧
      (r.atStart = true ↔ max (index - countBefore) 0 = 0) ∧
      (r.atEnd = true ↔
        min (index + countAfter) ((v.length : Int) - 1) = (v.length : Int) - 1) ∧
      r.totalCount = (v.length : Int) ∧
      r.items.length
        = (min (index + countAfter) ((v.length : Int) - 1)
            - max (index - countBefore) 0 + 1).toNat ∧
      (∀ j : Nat, j < r.items.length →
        ∃ e : α, jsGet v (max (index - countBefore) 0 + (j : Int)) = some e ∧
          r.items[j]? = some { data := mapping (some e), key := keySelector (some e) }) ∧
      (∃ e : α, jsGet v index = some e ∧
        r.items[(index - max (index - countBefore) 0).toNat]?
          = some { data := mapping (some e), key := keySelector (some e) }) := by
  have hok := itemsFromIndex_ok_eq keySelector mapping v index countBefore countAfter h1
  have hs0 : (0 : Int) ≤ max (index - countBefore) 0 := le_max_right _ _
  have hsi : max (index - countBefore) 0 ≤ index := max_le (by omega) h0
  have his : index ≤ min (index + countAfter) ((v.length : Int) - 1) :=
    le_min (by omega) (by omega)
  have hse : min (index + countAfter) ((v.length : Int) - 1) ≤ (v.length : Int) - 1 :=
    min_le_right _ _
  generalize hst : max (index - countBefore) 0 = start
  rw [hst] at hok hs0 hsi
  generalize hsp : min (index + countAfter) ((v.length : Int) - 1) = stop
  rw [hsp] at hok his hse
  refine ⟨_, hok, rfl, rfl, by simp, by simp, rfl, ?_, ?_, ?_⟩
  · show ((jsRange start (stop + 1)).map (itemFromIndex keySelector mapping v)).length = _
    rw [List.length_map, jsRange_length]
    omega
  · intro j hj
    rw [List.length_map, jsRange_length] at hj
    have hp0 : 0 ≤ start + (j : Int) := by omega
    have hp1 : start + (j : Int) < (v.length : Int) := by omega
    obtain ⟨e, he⟩ := jsGet_eq_some v (start + (j : Int)) hp0 hp1
    refine ⟨e, he, ?_⟩
    rw [List.getElem?_map, jsRange_getElem? start (stop + 1) j hj]
    show some (itemFromIndex keySelector mapping v (start + (j : Int))) = _
    rw [itemFromIndex, he]
  · obtain ⟨e, he⟩ := jsGet_eq_some v index h0 h1
    refine ⟨e, he, ?_⟩
    have hj : (index - start).toNat < (stop + 1 - start).toNat := by omega
    rw [List.getElem?_map, jsRange_getElem? start (stop + 1) _ hj]
    show some (itemFromIndex keySelector mapping v
      (start + (((index - start).toNat : Nat) : Int))) = _
    have hix : start + (((index - start).toNat : Nat) : Int) = index := by omega
    rw [hix, itemFromIndex, he]

/-- **C1 witness**: concrete instantiation — `itemsFromIndex(1, 1, 1)` on the
vector `[10, 20, 30]` with identity-like key selector and mapping. -/
theorem itemsFromIndex_inBounds_spec_witness :
    (0 : Int) ≤ 1 ∧ (1 : Int) < (([10, 20, 30] : List Nat).length : Int) ∧
    (0 : Int) ≤ 1 ∧ (0 : Int) ≤ 1 ∧
    (∃ r : FetchResult Nat Nat,
      itemsFromIndex (fun o => o.getD 0) (fun o => o.getD 0) [10, 20, 30] 1 1 1
        = Except.ok r ∧
      r.absoluteIndex = 1 ∧
      r.offset = 1 - max ((1 : Int) - 1) 0 ∧
      (r.atStart = true ↔ max ((1 : Int) - 1) 0 = 0) ∧
      (r.atEnd = true ↔
        min ((1 : Int) + 1) ((([10, 20, 30] : List Nat).length : Int) - 1)
          = (([10, 20, 30] : List Nat).length : Int) - 1) ∧
      r.totalCount = (([10, 20, 30] : List Nat).length : Int) ∧
      r.items.length
        = (min ((1 : Int) + 1) ((([10, 20, 30] : List Nat).length : Int) - 1)
            - max ((1 : Int) - 1) 0 + 1).toNat ∧
      (∀ j : Nat, j < r.items.length →
        ∃ e : Nat, jsGet [10, 20, 30] (max ((1 : Int) - 1) 0 + (j : Int)) = some e ∧
          r.items[j]? = some { data := (some e).getD 0, key := (some e).getD 0 }) ∧
      (∃ e : Nat, jsGet [10, 20, 30] 1 = some e ∧
        r.items[((1 : Int) - max ((1 : Int) - 1) 0).toNat]?
          = some { data := (some e).getD 0, key := (some e).getD 0 })) :=
  ⟨by decide, by decide, by decide, by decide,
    itemsFromIndex_inBounds_spec (fun o => o.getD 0) (fun o => o.getD 0) [10, 20, 30]
      1 1 1 (by decide) (by decide) (by decide) (by decide)⟩

/-- **C7**: `itemsFromStart(count)` returns exactly
`itemsFromIndex(0, 0, count - 1)` and `itemsFromEnd(count)` returns exactly
`itemsFromIndex(length - 1, count - 1, 0)` on the same vector; for a
non-empty vector and `count ≥ 1` these resolve with windows holding the
first (respectively last) `min(count, length)` items. -/
theorem itemsFromStartEnd_spec {α β κ : Type} (keySelector : Option α → κ)
    (mapping : Option α → β) (v : List α) (count : Int)
    (hv : v ≠ []) (_hc : 1 ≤ count) :
    itemsFromStart keySelector mapping v count
      = itemsFromIndex keySelector mapping v 0 0 (count - 1) ∧
    itemsFromEnd keySelector mapping v count
      = itemsFromIndex keySelector mapping v ((v.length : Int) - 1) (count - 1) 0 ∧
    (∃ r : FetchResult β κ, itemsFromStart keySelector mapping v count = Except.ok r ∧
      r.items = (List.range (min count (v.length : Int)).toNat).map
        (fun j : Nat => itemFromIndex keySelector mapping v (j : Int))) ∧
    (∃ r : FetchResult β κ, itemsFromEnd keySelector mapping v count = Except.ok r ∧
      r.items = (List.range (min count (v.length : Int)).toNat).map
        (fun j : Nat => itemFromIndex keySelector mapping v
          ((v.length : Int) - min count (v.length : Int) + (j : Int)))) := by
  have hlen : 0 < v.length := List.length_pos.mpr hv
  have hlenI : (0 : Int) < (v.length : Int) := by exact_mod_cast hlen
  refine ⟨rfl, rfl, ?_, ?_⟩
  · refine ⟨_, itemsFromIndex_ok_eq keySelector mapping v 0 0 (count - 1) hlenI, ?_⟩
    have e1 : max ((0 : Int) - 0) 0 = 0 := by simp
    have e2 : min ((0 : Int) + (count - 1)) ((v.length : Int) - 1) + 1
        = min count (v.length : Int) := by
      rw [zero_add, ← min_add_add_right]
      norm_num
    rw [e1, e2, jsRange, List.map_map]
    simp only [sub_zero]
    refine List.map_congr_left ?_
    intro k _
    simp
  · refine ⟨_, itemsFromIndex_ok_eq keySelector mapping v ((v.length : Int) - 1)
      (count - 1) 0 (by omega), ?_⟩
    have e3 : min ((v.length : Int) - 1 + 0) ((v.length : Int) - 1)
        = (v.length : Int) - 1 := by simp
    have e4 : max ((v.length : Int) - 1 - (count - 1)) 0
        = (v.length : Int) - min count (v.length : Int) := by
      rcases le_total count (v.length : Int) with h | h
      · rw [min_eq_left h, max_eq_left (by omega)]
        ring
      · rw [min_eq_right h, max_eq_right (by omega)]
        omega
    have e5 : (v.length : Int) - 1 + 1 = (v.length : Int) := by ring
    have e6 : ((v.length : Int) - ((v.length : Int) - min count (v.length : Int))).toNat
        = (min count (v.length : Int)).toNat := by omega
    rw [e3, e4, e5, jsRange, e6, List.map_map]
    refine List.map_congr_left ?_
    intro k _
    rfl

/-- **C7 witness**: concrete instantiation — `count = 2` on `[10, 20, 30]`. -/
theorem itemsFromStartEnd_spec_witness :
    ([10, 20, 30] : List Nat) ≠ [] ∧ (1 : Int) ≤ 2 ∧
    (itemsFromStart (fun o => o.getD 0) (fun o => o.getD 0) [10, 20, 30] 2
      = itemsFromIndex (fun o => o.getD 0) (fun o => o.getD 0) [10, 20, 30] 0 0 (2 - 1) ∧
    itemsFromEnd (fun o => o.getD 0) (fun o => o.getD 0) [10, 20, 30] 2
      = itemsFromIndex (fun o => o.getD 0) (fun o => o.getD 0) [10, 20, 30]
          ((([10, 20, 30] : List Nat).length : Int) - 1) (2 - 1) 0 ∧
    (∃ r : FetchResult Nat Nat,
      itemsFromStart (fun o => o.getD 0) (fun o => o.getD 0) [10, 20, 30] 2
        = Except.ok r ∧
      r.items = (List.range (min 2 (([10, 20, 30] : List Nat).length : Int)).toNat).map
        (fun j : Nat => itemFromIndex (fun o => o.getD 0) (fun o => o.getD 0)
          [10, 20, 30] (j : Int))) ∧
    (∃ r : FetchResult Nat Nat,
      itemsFromEnd (fun o => o.getD 0) (fun o => o.getD 0) [10, 20, 30] 2
        = Except.ok r ∧
      r.items = (List.range (min 2 (([10, 20, 30] : List Nat).length : Int)).toNat).map
        (fun j : Nat => itemFromIndex (fun o => o.getD 0) (fun o => o.getD 0)
          [10, 20, 30] ((([10, 20, 30] : List Nat).length : Int)
            - min 2 (([10, 20, 30] : List Nat).length : Int) + (j : Int))))) :=
  ⟨by decide, by decide,
    itemsFromStartEnd_spec (fun o => o.getD 0) (fun o => o.getD 0) [10, 20, 30] 2
      (by decide) (by decide)⟩
